import Mathlib

/-!
Shallow embedding of `app.py` (Image Extractor): the HTTP fetch helper
`fetch_image`, the imaging helpers `sniff_mime` / `to_data_url`, and the
sheet builder `build_excel_with_images`.  External effects (the HTTP
client `requests.Session.get` and the PIL image library) are modelled as
explicit oracles (`Network`, `Pil`) passed to the embedded functions;
everything the repository's own code computes is translated directly
from the source.
-/

namespace ImageExtractor

/-- `TIMEOUT = 25` from app.py (config). -/
def TIMEOUT : Nat := 25

/-- `MAX_BYTES = 12_000_000` from app.py (config). -/
def MAX_BYTES : Nat := 12000000

/-- `THUMB_PX = 96` from app.py (config). -/
def THUMB_PX : Nat := 96

/-- Raw byte strings are lists of naturals; a faithful byte string has
every element `< 256`. -/
abbrev Bytes := List Nat

/-- A Python scalar cell value as it can appear in a worksheet cell or be
passed to `fetch_image`: `None`, a string, or a non-string scalar
(modelled by an integer). -/
inductive PyVal where
  | none
  | str (s : String)
  | int (n : Int)
deriving DecidableEq, Repr

/-- Python truthiness of a scalar (`bool(v)`): `None`, `""` and `0` are
falsy. -/
def pyTruthy : PyVal → Bool
  | .none => false
  | .str s => s ≠ ""
  | .int n => n ≠ 0

/-- Python `str(v)` on a scalar. -/
def pyStr : PyVal → String
  | .none => "None"
  | .str s => s
  | .int n => toString n

/-- The whitespace characters stripped by Python `str.strip()` (ASCII
subset). -/
def isPySpace (c : Char) : Bool :=
  c = ' ' || c = '\t' || c = '\n' || c = '\r' || c = '\x0b' || c = '\x0c'

/-- Python `s.strip()`: remove leading and trailing whitespace. -/
def pyStrip (s : String) : String :=
  ⟨((s.toList.dropWhile isPySpace).reverse.dropWhile isPySpace).reverse⟩

/-- Python `s.upper()` on code-point sequences (ASCII case mapping). -/
def pyUpper (s : String) : String := ⟨s.toList.map Char.toUpper⟩

/-- Python `s.startswith(p)` on code-point sequences. -/
def pyStartsWith (s p : String) : Bool :=
  s.toList.take p.toList.length = p.toList

/-- Python `s[n:]` on code-point sequences. -/
def pyDrop (s : String) (n : Nat) : String :=
  ⟨s.toList.drop n⟩

/-- An HTTP response as `fetch_image` observes it: final status code,
the eagerly available body `r.content`, and the bytes still readable
from `r.raw`. -/
structure HttpResponse where
  status : Nat
  content : Bytes
  rawAvail : Bytes
deriving DecidableEq, Repr

/-- Outcome of one `session.get` call: a TLS verification failure
(`requests.exceptions.SSLError`), some other raised exception (carrying
the exception type name), or a response. -/
inductive NetResult where
  | sslError
  | netError (kind : String)
  | resp (r : HttpResponse)
deriving DecidableEq, Repr

/-- The HTTP client oracle: `get url verify` models
`session.get(url, ..., verify=verify)`. -/
structure Network where
  get : String → Bool → NetResult

/-- One recorded `session.get` invocation: the URL requested, the
`Referer` header sent, and the `verify` flag. -/
structure FetchCall where
  url : String
  referer : String
  verify : Bool
deriving DecidableEq, Repr

/-- `data = r.content if r.content else r.raw.read(MAX_BYTES + 1)`
(app.py line 52 / 58). -/
def readData (r : HttpResponse) : Bytes :=
  if r.content = [] then r.rawAvail.take (MAX_BYTES + 1) else r.content

/-- `return data if data and len(data) <= MAX_BYTES else b""`
(app.py line 61). -/
def finalize (data : Bytes) : Bytes :=
  if data ≠ [] ∧ data.length ≤ MAX_BYTES then data else []

/-- The primary GET with the TLS-failure retry (app.py lines 47-50):
`s.get(url, ...)`, and on `SSLError` the same call with `verify=False`.
Returns the result the `try/except SSLError` block produces together
with the calls issued.  Both calls send `Referer: url`. -/
def attemptGet (net : Network) (url : String) : NetResult × List FetchCall :=
  match net.get url true with
  | .sslError => (net.get url false, [⟨url, url, true⟩, ⟨url, url, false⟩])
  | r => (r, [⟨url, url, true⟩])

/-- `fetch_image(url)` (app.py lines 42-61).  Returns the value
(`Except.error kind` models a raised exception of type `kind`) and the
list of `session.get` calls made, in order.

```python
def fetch_image(url: str) -> bytes:
    if not isinstance(url, str) or not url.strip():
        return b""
    ...
```
-/
def fetch_image (net : Network) (url : PyVal) : Except String Bytes × List FetchCall :=
  match url with
  | .str s =>
    if pyStrip s = "" then (.ok [], [])
    else
      let ag := attemptGet net s
      let calls := ag.2
      match ag.1 with
      | .sslError => (.error "SSLError", calls)
      | .netError k => (.error k, calls)
      | .resp r =>
        -- r.raise_for_status(); raises for 4xx/5xx, and every real final
        -- status code is below 600, so the model raises for status ≥ 400
        if 400 ≤ r.status then (.error "HTTPError", calls)
        else
          let data := readData r
          -- if not data and url.startswith("https://"): retry over http://
          if data = [] ∧ pyStartsWith s "https://" = true then
            let alt := "http://" ++ pyDrop s 8
            let calls2 := calls ++ [⟨alt, s, true⟩]
            match net.get alt true with
            | .resp r2 =>
              if 400 ≤ r2.status then (.ok [], calls2)
              else (.ok (finalize (readData r2)), calls2)
            | _ => (.ok [], calls2)
          else (.ok (finalize data), calls)
  | _ => (.ok [], [])

/-- The PIL oracle: `fmt b` models `Image.open(BytesIO(b)).format`
(`Option.none` when `Image.open` raises or the attribute is `None`), and
`thumb b` models `to_png_thumb(b)` (`Except.error kind` when decoding
raises an exception of type `kind`, `Except.ok t` when it returns the
re-encoded PNG thumbnail bytes `t`). -/
structure Pil where
  fmt : Bytes → Option String
  thumb : Bytes → Except String Bytes

/-- `sniff_mime(img_bytes)` (app.py lines 70-79):

```python
try:    fmt = Image.open(io.BytesIO(img_bytes)).format or "PNG"
except Exception: fmt = "PNG"
fmt = fmt.upper()
if fmt in ("JPG","JPEG"): return "image/jpeg"
if fmt == "PNG": return "image/png"
if fmt == "GIF": return "image/gif"
return "image/png"
```
-/
def sniff_mime (pil : Pil) (b : Bytes) : String :=
  let f0 := match pil.fmt b with
    | Option.none => "PNG"
    | Option.some s => if s = "" then "PNG" else s
  let f := pyUpper f0
  if f = "JPG" ∨ f = "JPEG" then "image/jpeg"
  else if f = "PNG" then "image/png"
  else if f = "GIF" then "image/gif"
  else "image/png"

/-- The standard base64 alphabet used by `base64.b64encode`. -/
def b64Chars : List Char :=
  "ABCDEFGHIJKLMNOPQRSTUVWXYZabcdefghijklmnopqrstuvwxyz0123456789+/".toList

/-- Character for a sextet value. -/
def encChar (n : Nat) : Char := b64Chars.getD n 'A'

/-- Sextet value of an alphabet character (64 if not in the alphabet). -/
def decChar (c : Char) : Nat := b64Chars.indexOf c

/-- `base64.b64encode`: standard base64 with `=` padding, producing the
character sequence of the ASCII result. -/
def b64encode : Bytes → List Char
  | [] => []
  | [x] => [encChar (x / 4), encChar (x % 4 * 16), '=', '=']
  | [x, y] => [encChar (x / 4), encChar (x % 4 * 16 + y / 16), encChar (y % 16 * 4), '=']
  | x :: y :: z :: rest =>
      encChar (x / 4) :: encChar (x % 4 * 16 + y / 16) :: encChar (y % 16 * 4 + z / 64)
        :: encChar (z % 64) :: b64encode rest

/-- The base64 payload as a string. -/
def b64encodeStr (b : Bytes) : String := ⟨b64encode b⟩

/-- An independent standard base64 decoder (`base64.b64decode`
semantics on well-formed input): processes four characters at a time,
handling `=` padding only at the very end; returns `Option.none` on
malformed input. -/
def b64decode : List Char → Option Bytes
  | [] => Option.some []
  | c1 :: c2 :: c3 :: c4 :: rest =>
    if decChar c1 < 64 ∧ decChar c2 < 64 then
      if c3 = '=' then
        if c4 = '=' ∧ rest = [] then
          Option.some [decChar c1 * 4 + decChar c2 / 16]
        else Option.none
      else if decChar c3 < 64 then
        if c4 = '=' then
          if rest = [] then
            Option.some [decChar c1 * 4 + decChar c2 / 16,
                         decChar c2 % 16 * 16 + decChar c3 / 4]
          else Option.none
        else if decChar c4 < 64 then
          (b64decode rest).map
            (fun bs => (decChar c1 * 4 + decChar c2 / 16) ::
                       (decChar c2 % 16 * 16 + decChar c3 / 4) ::
                       (decChar c3 % 4 * 64 + decChar c4) :: bs)
        else Option.none
      else Option.none
    else Option.none
  | _ => Option.none

/-- Base64 decoding of a string payload. -/
def b64decodeStr (s : String) : Option Bytes := b64decode s.toList

/-- `to_data_url(img_bytes)` (app.py lines 81-84):
`f"data:{mime};base64,{b64}"` where `mime = sniff_mime(img_bytes)` and
`b64 = base64.b64encode(img_bytes)`. -/
def to_data_url (pil : Pil) (b : Bytes) : String :=
  "data:" ++ sniff_mime pil b ++ ";base64," ++ b64encodeStr b

/-- One output row of the built worksheet: its cell values (after the
`thumbnail_image_embedded` column insertion and any data-url write) and
whether an image object was anchored at this row. -/
structure RowOut where
  cells : List PyVal
  embedded : Bool
deriving DecidableEq, Repr

/-- One log record: `{"row": row_idx-1, "status": ...}` (app.py lines
134, 137, 140). -/
structure LogEntry where
  row : Nat
  status : String
deriving DecidableEq, Repr

/-- `url = str(ws.cell(row=row_idx, column=col_thumb).value or "").strip()`
(app.py line 123), reading column index `tIdx` (0-based) of the row. -/
def rowUrl (tIdx : Nat) (cells : List PyVal) : String :=
  let v := cells.getD tIdx .none
  pyStrip (pyStr (if pyTruthy v then v else .str ""))

/-- The body of the row loop (app.py lines 122-140) for one row:
returns the resulting row (data-url cell possibly overwritten, image
embedded or not), the status string logged, and the `session.get` calls
made.  Note the source writes `dcell.value = to_data_url(img_bytes)`
*before* calling `to_png_thumb`, so a decode failure raised by
`to_png_thumb` is caught after the data-url cell has been assigned. -/
def processRow (net : Network) (pil : Pil) (tIdx dIdx : Nat) (cells : List PyVal) :
    RowOut × String × List FetchCall :=
  let url := rowUrl tIdx cells
  if url = "" then (⟨cells, false⟩, "no-bytes", [])
  else
    let fr := fetch_image net (.str url)
    match fr.1 with
    | .error k => (⟨cells, false⟩, "error:" ++ k, fr.2)
    | .ok bs =>
      if bs = [] then (⟨cells, false⟩, "no-bytes", fr.2)
      else
        let cells2 := cells.set dIdx (.str (to_data_url pil bs))
        match pil.thumb bs with
        | .error k => (⟨cells2, false⟩, "error:" ++ k, fr.2)
        | .ok _ => (⟨cells2, true⟩, "ok", fr.2)

/-- The row loop `for row_idx in range(2, ws.max_row + 1)` (app.py lines
120-142) over the data rows, numbering log entries `row_idx - 1` (the
first data row gets `i + 1 = 1`).  Accumulates output rows, log entries
and HTTP calls in row order. -/
def buildRows (net : Network) (pil : Pil) (tIdx dIdx : Nat) :
    List (List PyVal) → Nat → List RowOut × List LogEntry × List FetchCall
  | [], _ => ([], [], [])
  | cells :: rest, i =>
    let p := processRow net pil tIdx dIdx cells
    let r := buildRows net pil tIdx dIdx rest (i + 1)
    (p.1 :: r.1, ⟨i + 1, p.2.1⟩ :: r.2.1, p.2.2 ++ r.2.2)

/-- An input table: column names and data rows (one cell list per row,
positionally matching `cols`). -/
structure Table where
  cols : List String
  rows : List (List PyVal)

/-- Everything `build_excel_with_images` produces that the claims
observe: the output header, the output data rows, the log, and the HTTP
calls made. -/
structure BuildOut where
  cols : List String
  rows : List RowOut
  logs : List LogEntry
  calls : List FetchCall
deriving DecidableEq, Repr

/-- `df_out = df.copy(); if max_rows and max_rows > 0: df_out = df_out.head(max_rows)`
(app.py lines 97-99). -/
def cappedRows (df : Table) (cap : Nat) : List (List PyVal) :=
  if 0 < cap then df.rows.take cap else df.rows

/-- Columns after `if "thumbnail_dataurl" not in df_out.columns:
df_out["thumbnail_dataurl"] = ""` (app.py lines 101-102). -/
def colsWithDataurl (df : Table) : List String :=
  if "thumbnail_dataurl" ∈ df.cols then df.cols
  else df.cols ++ ["thumbnail_dataurl"]

/-- Rows after the `thumbnail_dataurl` column creation (app.py lines
101-102): each row gains a trailing `""` cell when the column was
missing. -/
def rowsWithDataurl (df : Table) (cap : Nat) : List (List PyVal) :=
  if "thumbnail_dataurl" ∈ df.cols then cappedRows df cap
  else (cappedRows df cap).map (· ++ [PyVal.str ""])

/-- `col_thumb = headers.index("thumbnail") + 1` (app.py line 109),
0-based here. -/
def tIdxOf (df : Table) : Nat := (colsWithDataurl df).indexOf "thumbnail"

/-- `col_dataurl = headers.index("thumbnail_dataurl") + 1` (app.py line
110), 0-based here. -/
def dIdxOf (df : Table) : Nat := (colsWithDataurl df).indexOf "thumbnail_dataurl"

/-- Data rows after `ws.insert_cols(col_dataurl + 1, amount=1)` (app.py
line 112): an empty cell is inserted after the data-url column in every
row.  Note the loop keeps using the pre-insertion `col_thumb`, which
the model reproduces by reading `tIdxOf` of the post-insertion row. -/
def insertedRows (df : Table) (cap : Nat) : List (List PyVal) :=
  (rowsWithDataurl df cap).map (List.insertIdx (dIdxOf df + 1) PyVal.none)

/-- `build_excel_with_images(df, max_rows)` (app.py lines 93-145):
raises a missing-column `ValueError` when the `thumbnail` column is
absent (the model drops the quotation marks the Python message puts
around the column name), otherwise caps the rows, ensures the
`thumbnail_dataurl` column, inserts the `thumbnail_image_embedded`
column after it, runs the row loop, and returns the worksheet content
plus the log. -/
def build_excel_with_images (net : Network) (pil : Pil) (df : Table) (max_rows : Nat) :
    Except String BuildOut :=
  if "thumbnail" ∈ df.cols then
    let res := buildRows net pil (tIdxOf df) (dIdxOf df) (insertedRows df max_rows) 0
    .ok ⟨(colsWithDataurl df).insertIdx (dIdxOf df + 1) "thumbnail_image_embedded",
         res.1, res.2.1, res.2.2⟩
  else
    .error "Missing required column: thumbnail"

/-! ### Lemmas about `pyStrip` -/

theorem stringMk_eq_empty_iff (l : List Char) : (⟨l⟩ : String) = "" ↔ l = [] := by
  constructor
  · intro h
    have := congrArg String.data h
    simpa using this
  · rintro rfl
    rfl

theorem toList_stringMk (l : List Char) : (⟨l⟩ : String).toList = l := rfl

theorem pyStrip_eq_empty_iff (s : String) :
    pyStrip s = "" ↔ ∀ c ∈ s.toList, isPySpace c := by
  rw [pyStrip, stringMk_eq_empty_iff, List.reverse_eq_nil_iff, List.dropWhile_eq_nil_iff]
  constructor
  · intro h c hc
    rcases List.mem_append.1
        ((List.takeWhile_append_dropWhile (p := isPySpace) (l := s.toList)) ▸ hc) with h1 | h1
    · exact List.mem_takeWhile_imp h1
    · exact h c (List.mem_reverse.2 h1)
  · intro h c hc
    exact h c ((List.dropWhile_sublist isPySpace).mem (List.mem_reverse.1 hc))

theorem pyStrip_ne_empty {s : String} {c : Char} (hc : c ∈ s.toList)
    (hp : isPySpace c = false) : pyStrip s ≠ "" := by
  intro h
  have := (pyStrip_eq_empty_iff s).1 h c hc
  rw [hp] at this
  exact Bool.false_ne_true this

/-- The stripped string, when non-empty, contains a non-whitespace
character. -/
theorem pyStrip_has_solid {s : String} (h : pyStrip s ≠ "") :
    ∃ c ∈ (pyStrip s).toList, isPySpace c = false := by
  rw [pyStrip, Ne, stringMk_eq_empty_iff, List.reverse_eq_nil_iff] at h
  refine ⟨((s.toList.dropWhile isPySpace).reverse.dropWhile isPySpace).head h, ?_, ?_⟩
  · rw [pyStrip, toList_stringMk, List.mem_reverse]
    exact List.head_mem h
  · exact List.head_dropWhile_not isPySpace _ h

/-- Stripping an already-stripped non-empty string cannot give the empty
string (`fetch_image` re-strips the URL the row loop already
stripped). -/
theorem pyStrip_pyStrip_ne {s : String} (h : pyStrip s ≠ "") :
    pyStrip (pyStrip s) ≠ "" := by
  obtain ⟨c, hc, hp⟩ := pyStrip_has_solid h
  exact pyStrip_ne_empty hc hp

/-! ### Base64 round-trip -/

set_option maxHeartbeats 1000000 in
theorem decChar_encChar_fin :
    ∀ n : Fin 64, decChar (encChar n.val) = n.val ∧ encChar n.val ≠ '=' := by decide

theorem decChar_encChar {n : Nat} (h : n < 64) : decChar (encChar n) = n :=
  (decChar_encChar_fin ⟨n, h⟩).1

theorem encChar_ne_pad {n : Nat} (h : n < 64) : encChar n ≠ '=' :=
  (decChar_encChar_fin ⟨n, h⟩).2

/-- Decoding the base64 encoding of any byte string recovers it
exactly. -/
theorem b64_roundtrip :
    ∀ (b : Bytes), (∀ x ∈ b, x < 256) → b64decode (b64encode b) = Option.some b
  | [], _ => rfl
  | [x], h => by
    have hx : x < 256 := h x (by simp)
    have h1 : x / 4 < 64 := by omega
    have h2 : x % 4 * 16 < 64 := by omega
    simp only [b64encode, b64decode, decChar_encChar h1, decChar_encChar h2]
    simp [h1, h2]
    omega
  | [x, y], h => by
    have hx : x < 256 := h x (by simp)
    have hy : y < 256 := h y (by simp)
    have h1 : x / 4 < 64 := by omega
    have h2 : x % 4 * 16 + y / 16 < 64 := by omega
    have h3 : y % 16 * 4 < 64 := by omega
    simp only [b64encode, b64decode, decChar_encChar h1, decChar_encChar h2, decChar_encChar h3]
    simp [h1, h2, h3, encChar_ne_pad h3]
    omega
  | x :: y :: z :: rest, h => by
    have hx : x < 256 := h x (by simp)
    have hy : y < 256 := h y (by simp)
    have hz : z < 256 := h z (by simp)
    have ih := b64_roundtrip rest (fun a ha => h a (by simp [ha]))
    have h1 : x / 4 < 64 := by omega
    have h2 : x % 4 * 16 + y / 16 < 64 := by omega
    have h3 : y % 16 * 4 + z / 64 < 64 := by omega
    have h4 : z % 64 < 64 := by omega
    simp only [b64encode, b64decode, decChar_encChar h1, decChar_encChar h2,
      decChar_encChar h3, decChar_encChar h4]
    simp [h1, h2, h3, h4, encChar_ne_pad h3, encChar_ne_pad h4, ih]
    refine ⟨by omega, by omega, by omega⟩

/-! ### Row-loop structure lemmas -/

/-- Complete case analysis of one row-loop iteration. -/
theorem processRow_shape (net : Network) (pil : Pil) (t d : Nat) (cells : List PyVal) :
    (processRow net pil t d cells = (⟨cells, false⟩, "no-bytes", []) ∧ rowUrl t cells = "") ∨
    (rowUrl t cells ≠ "" ∧
      ((∃ k, (fetch_image net (.str (rowUrl t cells))).1 = .error k ∧
          processRow net pil t d cells =
            (⟨cells, false⟩, "error:" ++ k, (fetch_image net (.str (rowUrl t cells))).2)) ∨
       ((fetch_image net (.str (rowUrl t cells))).1 = .ok [] ∧
          processRow net pil t d cells =
            (⟨cells, false⟩, "no-bytes", (fetch_image net (.str (rowUrl t cells))).2)) ∨
       (∃ bs, (fetch_image net (.str (rowUrl t cells))).1 = .ok bs ∧ bs ≠ [] ∧
          ((∃ k, pil.thumb bs = .error k ∧
              processRow net pil t d cells =
                (⟨cells.set d (.str (to_data_url pil bs)), false⟩, "error:" ++ k,
                 (fetch_image net (.str (rowUrl t cells))).2)) ∨
           (∃ tb, pil.thumb bs = .ok tb ∧
              processRow net pil t d cells =
                (⟨cells.set d (.str (to_data_url pil bs)), true⟩, "ok",
                 (fetch_image net (.str (rowUrl t cells))).2)))))) := by
  by_cases hu : rowUrl t cells = ""
  · exact Or.inl ⟨by simp [processRow, hu], hu⟩
  · refine Or.inr ⟨hu, ?_⟩
    cases hf : (fetch_image net (.str (rowUrl t cells))).1 with
    | error k => exact Or.inl ⟨k, rfl, by simp [processRow, hu, hf]⟩
    | ok bs =>
      by_cases hbs : bs = []
      · subst hbs
        exact Or.inr (Or.inl ⟨rfl, by simp [processRow, hu, hf]⟩)
      · refine Or.inr (Or.inr ⟨bs, rfl, hbs, ?_⟩)
        cases ht : pil.thumb bs with
        | error k => exact Or.inl ⟨k, rfl, by simp [processRow, hu, hf, hbs, ht]⟩
        | ok tb => exact Or.inr ⟨tb, rfl, by simp [processRow, hu, hf, hbs, ht]⟩

theorem buildRows_rows_length (net : Network) (pil : Pil) (t d : Nat)
    (rows : List (List PyVal)) (i : Nat) :
    (buildRows net pil t d rows i).1.length = rows.length := by
  induction rows generalizing i with
  | nil => rfl
  | cons c rest ih => simp [buildRows, ih]

theorem buildRows_logs_length (net : Network) (pil : Pil) (t d : Nat)
    (rows : List (List PyVal)) (i : Nat) :
    (buildRows net pil t d rows i).2.1.length = rows.length := by
  induction rows generalizing i with
  | nil => rfl
  | cons c rest ih => simp [buildRows, ih]

theorem buildRows_logs_getElem? (net : Network) (pil : Pil) (t d : Nat) :
    ∀ (rows : List (List PyVal)) (i j : Nat),
    (buildRows net pil t d rows i).2.1[j]? =
      (rows[j]?).map (fun cells => (⟨i + j + 1, (processRow net pil t d cells).2.1⟩ : LogEntry))
  | [], i, j => by simp [buildRows]
  | c :: rest, i, 0 => by simp [buildRows]
  | c :: rest, i, j + 1 => by
    have ih := buildRows_logs_getElem? net pil t d rest (i + 1) j
    show (LogEntry.mk (i + 1) (processRow net pil t d c).2.1 ::
        (buildRows net pil t d rest (i + 1)).2.1)[j + 1]? = _
    rw [List.getElem?_cons_succ, List.getElem?_cons_succ, ih]
    have harith : i + 1 + j + 1 = i + (j + 1) + 1 := by omega
    rw [harith]

theorem buildRows_rows_getElem? (net : Network) (pil : Pil) (t d : Nat) :
    ∀ (rows : List (List PyVal)) (i j : Nat),
    (buildRows net pil t d rows i).1[j]? =
      (rows[j]?).map (fun cells => (processRow net pil t d cells).1)
  | [], i, j => by simp [buildRows]
  | c :: rest, i, 0 => by simp [buildRows]
  | c :: rest, i, j + 1 => by
    have ih := buildRows_rows_getElem? net pil t d rest (i + 1) j
    show ((processRow net pil t d c).1 :: (buildRows net pil t d rest (i + 1)).1)[j + 1]? = _
    rw [List.getElem?_cons_succ, List.getElem?_cons_succ, ih]

/-! ### Fetch path lemmas -/

theorem finalize_length (d : Bytes) : (finalize d).length ≤ MAX_BYTES := by
  rw [finalize]
  split
  · next h => exact h.2
  · simp

theorem fetch_image_ok_length (net : Network) (u : PyVal) (bs : Bytes)
    (h : (fetch_image net u).1 = .ok bs) : bs.length ≤ MAX_BYTES := by
  cases u with
  | none => simp [fetch_image] at h; subst h; simp [MAX_BYTES]
  | int n => simp [fetch_image] at h; subst h; simp [MAX_BYTES]
  | str s =>
    by_cases hstrip : pyStrip s = ""
    · simp [fetch_image, hstrip] at h; subst h; simp [MAX_BYTES]
    · simp only [fetch_image, if_neg hstrip] at h
      cases hag : (attemptGet net s).1 with
      | sslError => rw [hag] at h; dsimp only at h; simp at h
      | netError k => rw [hag] at h; dsimp only at h; simp at h
      | resp r =>
        rw [hag] at h
        dsimp only at h
        by_cases hst : 400 ≤ r.status
        · rw [if_pos hst] at h; simp at h
        · rw [if_neg hst] at h
          by_cases hfb : readData r = [] ∧ pyStartsWith s "https://" = true
          · rw [if_pos hfb] at h
            cases hn : net.get ("http://" ++ pyDrop s 8) true with
            | resp r2 =>
              rw [hn] at h
              dsimp only at h
              by_cases hst2 : 400 ≤ r2.status
              · rw [if_pos hst2] at h; simp at h; subst h; simp [MAX_BYTES]
              · rw [if_neg hst2] at h
                simp at h
                rw [← h]
                exact finalize_length _
            | sslError => rw [hn] at h; dsimp only at h; simp at h; subst h; simp [MAX_BYTES]
            | netError k => rw [hn] at h; dsimp only at h; simp at h; subst h; simp [MAX_BYTES]
          · rw [if_neg hfb] at h
            simp at h
            rw [← h]
            exact finalize_length _

theorem fetch_image_httpError (net : Network) (s : String) (r : HttpResponse)
    (hs : pyStrip s ≠ "") (hresp : (attemptGet net s).1 = .resp r) (hst : 400 ≤ r.status) :
    fetch_image net (.str s) = (.error "HTTPError", (attemptGet net s).2) := by
  simp only [fetch_image, if_neg hs]
  rw [hresp]
  dsimp only
  rw [if_pos hst]

theorem fetch_image_oversize (net : Network) (s : String) (r : HttpResponse)
    (hs : pyStrip s ≠ "") (hresp : (attemptGet net s).1 = .resp r) (hst : r.status < 400)
    (hbig : MAX_BYTES < (readData r).length) :
    (fetch_image net (.str s)).1 = .ok [] := by
  have hne : readData r ≠ [] := by
    intro h0
    rw [h0] at hbig
    simp at hbig
  simp only [fetch_image, if_neg hs]
  rw [hresp]
  dsimp only
  rw [if_neg (by omega : ¬ 400 ≤ r.status),
    if_neg (by simp [hne] : ¬(readData r = [] ∧ pyStartsWith s "https://" = true))]
  simp [finalize, Nat.not_le.2 hbig]

/-- When the (post-TLS-retry) response is successful with an empty body
and the URL is `https`, `fetch_image` issues exactly one more GET, to
the `http` downgrade of the URL with the same `Referer` header, and its
result is fully determined by that fallback call. -/
theorem fetch_image_fallback_result (net : Network) (s : String) (r : HttpResponse)
    (hs : pyStrip s ≠ "") (hhttps : pyStartsWith s "https://" = true)
    (hresp : (attemptGet net s).1 = .resp r) (hst : r.status < 400)
    (hempty : readData r = []) :
    fetch_image net (.str s) =
      ((match net.get ("http://" ++ pyDrop s 8) true with
        | .resp r2 => if 400 ≤ r2.status then Except.ok [] else Except.ok (finalize (readData r2))
        | _ => Except.ok []),
       (attemptGet net s).2 ++ [⟨"http://" ++ pyDrop s 8, s, true⟩]) := by
  simp only [fetch_image, if_neg hs]
  rw [hresp]
  dsimp only
  rw [if_neg (by omega : ¬ 400 ≤ r.status), if_pos ⟨hempty, hhttps⟩]
  cases hn : net.get ("http://" ++ pyDrop s 8) true with
  | resp r2 =>
    dsimp only
    by_cases hst2 : 400 ≤ r2.status
    · rw [if_pos hst2, if_pos hst2]
    · rw [if_neg hst2, if_neg hst2]
  | sslError => rfl
  | netError k => rfl

/-! ### Sheet-builder lemmas -/

theorem cappedRows_length (df : Table) (cap : Nat) :
    (cappedRows df cap).length =
      if 0 < cap then min cap df.rows.length else df.rows.length := by
  rw [cappedRows]
  split
  · rw [List.length_take]
  · rfl

theorem rowsWithDataurl_length (df : Table) (cap : Nat) :
    (rowsWithDataurl df cap).length = (cappedRows df cap).length := by
  rw [rowsWithDataurl]
  split
  · rfl
  · rw [List.length_map]

theorem insertedRows_length (df : Table) (cap : Nat) :
    (insertedRows df cap).length =
      if 0 < cap then min cap df.rows.length else df.rows.length := by
  rw [insertedRows, List.length_map, rowsWithDataurl_length, cappedRows_length]

theorem build_ok (net : Network) (pil : Pil) (df : Table) (cap : Nat)
    (h : "thumbnail" ∈ df.cols) :
    build_excel_with_images net pil df cap = .ok {
      cols := (colsWithDataurl df).insertIdx (dIdxOf df + 1) "thumbnail_image_embedded",
      rows := (buildRows net pil (tIdxOf df) (dIdxOf df) (insertedRows df cap) 0).1,
      logs := (buildRows net pil (tIdxOf df) (dIdxOf df) (insertedRows df cap) 0).2.1,
      calls := (buildRows net pil (tIdxOf df) (dIdxOf df) (insertedRows df cap) 0).2.2 } := by
  rw [build_excel_with_images, if_pos h]

/-! ### Concrete fixtures and claim theorems -/

/-- A network where every GET returns HTTP 404 with an empty body. -/
def net404 : Network := ⟨fun _ _ => .resp ⟨404, [], []⟩⟩

/-- A network where every GET succeeds with the three-byte body 1,2,3. -/
def netOk123 : Network := ⟨fun _ _ => .resp ⟨200, [1, 2, 3], []⟩⟩

/-- A network where every GET raises `MissingSchema` (what `requests`
does for a URL without a scheme, such as the stringified cell `42`). -/
def netMS : Network := ⟨fun _ _ => .netError "MissingSchema"⟩

/-- A PIL oracle that can decode nothing: format sniffing raises and
`to_png_thumb` raises `OSError`. -/
def pil0 : Pil := ⟨fun _ => Option.none, fun _ => .error "OSError"⟩

/-- A PIL oracle that reports every byte string as a JPEG. -/
def pilJPEG : Pil := ⟨fun _ => Option.some "JPEG", fun b => .ok b⟩

/-- A network that answers the https URL with an empty 200 body and
fails every other request. -/
def netFB : Network :=
  ⟨fun u _ => if u = "https://a" then .resp ⟨200, [], []⟩ else .netError "ConnectionError"⟩

/-- A network whose response body exceeds `MAX_BYTES` by one byte. -/
def netBig : Network := ⟨fun _ _ => .resp ⟨200, List.replicate (MAX_BYTES + 1) 7, []⟩⟩

/-- C1, counterexample: a single-row table whose URL gets an HTTP 404.
The code logs `error:HTTPError` (the `raise_for_status` exception caught
by the generic handler), not `no-bytes` as the claim states. -/
theorem C1_counterexample :
    build_excel_with_images net404 pil0 ⟨["thumbnail"], [[.str "http://x"]]⟩ 0 =
      .ok ⟨["thumbnail", "thumbnail_dataurl", "thumbnail_image_embedded"],
           [⟨[.str "http://x", .str "", .none], false⟩],
           [⟨1, "error:HTTPError"⟩],
           [⟨"http://x", "http://x", true⟩]⟩ ∧
    ("error:HTTPError" ≠ "no-bytes") := ⟨rfl, by decide⟩

/-- C1, amended: for every row whose URL gets a non-success HTTP status
(≥ 400), `fetch_image` raises `HTTPError` (so the row has no fetched
bytes and its data-url cell is unchanged) and the row's log status is
`error:HTTPError`, not `no-bytes`. -/
theorem C1_http_error_row (net : Network) (pil : Pil) (t d : Nat) (cells : List PyVal)
    (r : HttpResponse) (hurl : rowUrl t cells ≠ "")
    (hresp : (attemptGet net (rowUrl t cells)).1 = .resp r) (hst : 400 ≤ r.status) :
    processRow net pil t d cells =
      (⟨cells, false⟩, "error:HTTPError", (attemptGet net (rowUrl t cells)).2) := by
  have hs : pyStrip (rowUrl t cells) ≠ "" := pyStrip_pyStrip_ne hurl
  simp only [processRow, if_neg hurl]
  rw [fetch_image_httpError net (rowUrl t cells) r hs hresp hst]
  dsimp only
  rfl

/-- C1, witness: the amended row behaviour at a concrete 404 row. -/
theorem C1_witness :
    processRow net404 pil0 0 1 [.str "http://x"] =
      (⟨[.str "http://x"], false⟩, "error:HTTPError",
       (attemptGet net404 (rowUrl 0 [.str "http://x"])).2) :=
  C1_http_error_row net404 pil0 0 1 [.str "http://x"] ⟨404, [], []⟩ (by decide) rfl
    (by decide)

/-- C7: a table without a `thumbnail` column makes
`build_excel_with_images` fail up front with the missing-column error:
no row is processed, no log entry is produced, no cell is written. -/
theorem C7_missing_column (net : Network) (pil : Pil) (df : Table) (cap : Nat)
    (h : "thumbnail" ∉ df.cols) :
    build_excel_with_images net pil df cap = .error "Missing required column: thumbnail" := by
  rw [build_excel_with_images, if_neg h]

/-- C7, witness: the missing-column failure at a concrete table. -/
theorem C7_witness :
    build_excel_with_images net404 pil0 ⟨["name"], [[.str "a"]]⟩ 0 =
      .error "Missing required column: thumbnail" :=
  C7_missing_column net404 pil0 ⟨["name"], [[.str "a"]]⟩ 0 (by decide)

/-- C8, counterexample: a row whose cell holds the non-string value 42.
The row loop stringifies it (`str(42 or "") = "42"`), so `fetch_image`
is invoked and hands `"42"` to `session.get`: an HTTP-client call is
made (it raises `MissingSchema`), contradicting the claim that no
network call occurs for a non-string cell. -/
theorem C8_counterexample :
    build_excel_with_images netMS pil0 ⟨["thumbnail"], [[.int 42]]⟩ 0 =
      .ok ⟨["thumbnail", "thumbnail_dataurl", "thumbnail_image_embedded"],
           [⟨[.int 42, .str "", .none], false⟩],
           [⟨1, "error:MissingSchema"⟩],
           [⟨"42", "42", true⟩]⟩ ∧
    ([(⟨"42", "42", true⟩ : FetchCall)] ≠ ([] : List FetchCall)) := ⟨rfl, by decide⟩

/-- C8, amended: a non-string value passed directly to `fetch_image`
yields the empty result with no network call, and a row whose cell
stringifies to the empty URL is logged `no-bytes` with no network call;
but a truthy non-string cell is stringified by the row loop and does
reach the HTTP client. -/
theorem C8_empty_or_nonstring :
    (∀ (net : Network) (v : PyVal), (∀ s, v ≠ .str s) →
      fetch_image net v = (.ok [], [])) ∧
    (∀ (net : Network) (pil : Pil) (t d : Nat) (cells : List PyVal),
      rowUrl t cells = "" →
      processRow net pil t d cells = (⟨cells, false⟩, "no-bytes", [])) := by
  constructor
  · intro net v hv
    cases v with
    | none => rfl
    | str s => exact absurd rfl (hv s)
    | int n => rfl
  · intro net pil t d cells h
    simp [processRow, h]

/-- C8, witness: the amended behaviour at a `None` cell and at a
`None` value passed directly to the fetcher. -/
theorem C8_witness :
    fetch_image netMS .none = (.ok [], []) ∧
    processRow netMS pil0 0 1 [.none] = (⟨[.none], false⟩, "no-bytes", []) :=
  ⟨C8_empty_or_nonstring.1 netMS .none (fun s h => PyVal.noConfusion h),
   C8_empty_or_nonstring.2 netMS pil0 0 1 [.none] (by decide)⟩

/-- C10: a whitespace-only URL string behaves exactly like the empty
string: `fetch_image` returns the empty result and makes no
`session.get` call. -/
theorem C10_whitespace_url (net : Network) (s : String)
    (h : ∀ c ∈ s.toList, isPySpace c) :
    fetch_image net (.str s) = fetch_image net (.str "") ∧
    fetch_image net (.str s) = (.ok [], []) := by
  have hs : pyStrip s = "" := (pyStrip_eq_empty_iff s).2 h
  have h0 : pyStrip "" = "" := rfl
  refine ⟨?_, ?_⟩ <;> simp [fetch_image, hs, h0]

/-- C10, witness: the whitespace-only URL behaviour at a concrete
string of blanks and tabs. -/
theorem C10_witness :
    fetch_image netMS (.str " \t ") = fetch_image netMS (.str "") ∧
    fetch_image netMS (.str " \t ") = (.ok [], []) :=
  C10_whitespace_url netMS " \t " (by decide)

/-- C4: every value `fetch_image` returns is empty or at most
`MAX_BYTES` long, and a successful response whose payload exceeds
`MAX_BYTES` produces the empty result. -/
theorem C4_size_bound :
    (∀ (net : Network) (u : PyVal) (bs : Bytes),
      (fetch_image net u).1 = .ok bs → bs.length ≤ MAX_BYTES) ∧
    (∀ (net : Network) (s : String) (r : HttpResponse),
      pyStrip s ≠ "" → (attemptGet net s).1 = .resp r → r.status < 400 →
      MAX_BYTES < (readData r).length → (fetch_image net (.str s)).1 = .ok []) :=
  ⟨fetch_image_ok_length, fetch_image_oversize⟩

/-- C4, witness: a payload one byte over the limit collapses to the
empty result. -/
theorem C4_witness : (fetch_image netBig (.str "http://a")).1 = .ok [] := by
  refine C4_size_bound.2 netBig "http://a" ⟨200, List.replicate (MAX_BYTES + 1) 7, []⟩
    (by decide) rfl (by decide) ?_
  have hne : List.replicate (MAX_BYTES + 1) 7 ≠ ([] : Bytes) := by
    intro h0
    have := congrArg List.length h0
    simp at this
  show MAX_BYTES < (readData ⟨200, List.replicate (MAX_BYTES + 1) 7, []⟩).length
  rw [readData]
  rw [if_neg hne]
  simp

/-- C5: for every byte string, the data URL built by `to_data_url` is
literally `data:` + sniffed MIME + `;base64,` + payload, and base64
decoding of the payload returns exactly the original fetched bytes (the
thumbnail is never involved in the data URL). -/
theorem C5_dataurl_roundtrip (pil : Pil) (b : Bytes) (hne : b ≠ [])
    (hb : ∀ x ∈ b, x < 256) :
    to_data_url pil b = "data:" ++ sniff_mime pil b ++ ";base64," ++ b64encodeStr b ∧
    b64decodeStr (b64encodeStr b) = Option.some b :=
  ⟨rfl, b64_roundtrip b hb⟩

/-- C5, witness: the round trip at the concrete byte string 1,2,3. -/
theorem C5_witness :
    to_data_url pil0 [1, 2, 3] =
      "data:" ++ sniff_mime pil0 [1, 2, 3] ++ ";base64," ++ b64encodeStr [1, 2, 3] ∧
    b64decodeStr (b64encodeStr [1, 2, 3]) = Option.some [1, 2, 3] :=
  C5_dataurl_roundtrip pil0 [1, 2, 3] (by decide) (by decide)

/-- C9: `sniff_mime` maps a JPEG format to `image/jpeg`, PNG to
`image/png`, GIF to `image/gif`, and everything else (unknown formats,
undecodable bytes) to `image/png`; it never returns any other
string. -/
theorem C9_sniff_mime_cases (pil : Pil) (b : Bytes) :
    (pil.fmt b = Option.some "JPEG" → sniff_mime pil b = "image/jpeg") ∧
    (pil.fmt b = Option.some "PNG" → sniff_mime pil b = "image/png") ∧
    (pil.fmt b = Option.some "GIF" → sniff_mime pil b = "image/gif") ∧
    (pil.fmt b = Option.none → sniff_mime pil b = "image/png") ∧
    (sniff_mime pil b = "image/jpeg" ∨ sniff_mime pil b = "image/png" ∨
      sniff_mime pil b = "image/gif") := by
  refine ⟨?_, ?_, ?_, ?_, ?_⟩
  · intro h
    simp only [sniff_mime, h]
    rfl
  · intro h
    simp only [sniff_mime, h]
    rfl
  · intro h
    simp only [sniff_mime, h]
    rfl
  · intro h
    simp only [sniff_mime, h]
    rfl
  · rw [sniff_mime]
    split
    · exact Or.inl rfl
    · split
      · exact Or.inr (Or.inl rfl)
      · split
        · exact Or.inr (Or.inr rfl)
        · exact Or.inr (Or.inl rfl)

/-- C9, witness: the JPEG case at a concrete oracle. -/
theorem C9_witness : sniff_mime pilJPEG [] = "image/jpeg" :=
  (C9_sniff_mime_cases pilJPEG []).1 rfl

/-- C6: when a GET for an `https://` URL succeeds with an empty body,
`fetch_image` issues exactly one more GET to the `http://` downgrade of
the URL with the same `Referer` header, and any failure of that
fallback (exception or non-success status) yields the empty result
instead of a propagated error. -/
theorem C6_https_fallback (net : Network) (s : String) (r : HttpResponse)
    (hhttps : pyStartsWith s "https://" = true)
    (hresp : (attemptGet net s).1 = .resp r) (hst : r.status < 400)
    (hempty : readData r = []) :
    (fetch_image net (.str s)).2 =
      (attemptGet net s).2 ++ [⟨"http://" ++ pyDrop s 8, s, true⟩] ∧
    ((net.get ("http://" ++ pyDrop s 8) true = .sslError ∨
      (∃ k, net.get ("http://" ++ pyDrop s 8) true = .netError k) ∨
      (∃ r2, net.get ("http://" ++ pyDrop s 8) true = .resp r2 ∧ 400 ≤ r2.status)) →
      (fetch_image net (.str s)).1 = .ok []) := by
  have hp : s.toList.take ("https://".toList.length) = "https://".toList :=
    of_decide_eq_true hhttps
  have hmem : 'h' ∈ s.toList := by
    have h8 : 'h' ∈ s.toList.take ("https://".toList.length) := by
      rw [hp]
      decide
    exact List.take_subset _ _ h8
  have hs : pyStrip s ≠ "" := pyStrip_ne_empty hmem (by decide)
  have hchar := fetch_image_fallback_result net s r hs hhttps hresp hst hempty
  constructor
  · rw [hchar]
  · intro hfail
    rw [hchar]
    rcases hfail with h1 | ⟨k, h1⟩ | ⟨r2, h1, h2⟩ <;> rw [h1]
    dsimp only
    rw [if_pos h2]

/-- C6, witness: the fallback at a concrete network that answers the
https URL with an empty 200 body and fails the http fallback. -/
theorem C6_witness :
    (fetch_image netFB (.str "https://a")).2 =
      (attemptGet netFB "https://a").2 ++ [⟨"http://" ++ pyDrop "https://a" 8, "https://a", true⟩] ∧
    (fetch_image netFB (.str "https://a")).1 = .ok [] := by
  have h := C6_https_fallback netFB "https://a" ⟨200, [], []⟩ (by decide) rfl (by decide) rfl
  exact ⟨h.1, h.2 (Or.inr (Or.inl ⟨"ConnectionError", rfl⟩))⟩


/-- Every status the row loop can log. -/
theorem processRow_status (net : Network) (pil : Pil) (t d : Nat) (cells : List PyVal) :
    (processRow net pil t d cells).2.1 = "ok" ∨
    (processRow net pil t d cells).2.1 = "no-bytes" ∨
      ∃ k, (processRow net pil t d cells).2.1 = "error:" ++ k := by
  rcases processRow_shape net pil t d cells with
      ⟨hp, _⟩ | ⟨_, ⟨k, _, hp⟩ | ⟨_, hp⟩ | ⟨bs, _, _, ⟨k, _, hp⟩ | ⟨tb, _, hp⟩⟩⟩ <;> rw [hp]
  · exact Or.inr (Or.inl rfl)
  · exact Or.inr (Or.inr ⟨k, rfl⟩)
  · exact Or.inr (Or.inl rfl)
  · exact Or.inr (Or.inr ⟨k, rfl⟩)
  · exact Or.inl rfl

/-- C2: for every table with a `thumbnail` column, the run succeeds and
produces exactly one log entry per processed data row (all rows, or the
capped count under a positive cap), in original row order; entry `j`
(0-based) carries the 1-based data row number `j + 1` and a status that
is `ok`, `no-bytes` or `error:` followed by an exception kind. -/
theorem C2_one_log_per_row (net : Network) (pil : Pil) (df : Table) (cap : Nat)
    (h : "thumbnail" ∈ df.cols) :
    ∃ out, build_excel_with_images net pil df cap = .ok out ∧
      out.logs.length = (if 0 < cap then min cap df.rows.length else df.rows.length) ∧
      ∀ j e, out.logs[j]? = Option.some e →
        e.row = j + 1 ∧
        (e.status = "ok" ∨ e.status = "no-bytes" ∨ ∃ k, e.status = "error:" ++ k) := by
  refine ⟨_, build_ok net pil df cap h, ?_, ?_⟩
  · show (buildRows net pil (tIdxOf df) (dIdxOf df) (insertedRows df cap) 0).2.1.length = _
    rw [buildRows_logs_length, insertedRows_length]
  · intro j e he
    rw [show ({ cols := _, rows := _, logs := (buildRows net pil (tIdxOf df) (dIdxOf df)
        (insertedRows df cap) 0).2.1, calls := _ } : BuildOut).logs =
        (buildRows net pil (tIdxOf df) (dIdxOf df) (insertedRows df cap) 0).2.1 from rfl,
      buildRows_logs_getElem?] at he
    cases hc : (insertedRows df cap)[j]? with
    | none => rw [hc] at he; simp at he
    | some cells =>
      rw [hc] at he
      simp only [Option.map_some'] at he
      cases he
      constructor
      · show 0 + j + 1 = j + 1
        omega
      · exact processRow_status net pil (tIdxOf df) (dIdxOf df) cells

/-- A one-column, one-row fixture table. -/
def tbl1 : Table := ⟨["thumbnail"], [[.str "http://x"]]⟩

/-- C2, witness: the log invariant at a concrete one-row table. -/
theorem C2_witness :
    ∃ out, build_excel_with_images net404 pil0 tbl1 0 = .ok out ∧
      out.logs.length = (if 0 < 0 then min 0 tbl1.rows.length else tbl1.rows.length) ∧
      ∀ j e, out.logs[j]? = Option.some e →
        e.row = j + 1 ∧
        (e.status = "ok" ∨ e.status = "no-bytes" ∨ ∃ k, e.status = "error:" ++ k) :=
  C2_one_log_per_row net404 pil0 tbl1 0 (by decide)

/-- C3, counterexample: a fetch that succeeds with undecodable bytes.
`to_png_thumb` raises (status `error:OSError`), i.e. an exception is
raised inside the row loop, yet the `thumbnail_dataurl` cell has
already been overwritten with the data URL — it is not left
unchanged as the claim states. -/
theorem C3_counterexample :
    build_excel_with_images netOk123 pil0 ⟨["thumbnail"], [[.str "http://x"]]⟩ 0 =
      .ok ⟨["thumbnail", "thumbnail_dataurl", "thumbnail_image_embedded"],
           [⟨[.str "http://x", .str "data:image/png;base64,AQID", .none], false⟩],
           [⟨1, "error:OSError"⟩],
           [⟨"http://x", "http://x", true⟩]⟩ ∧
    (PyVal.str "data:image/png;base64,AQID" ≠ PyVal.str "") := ⟨rfl, by decide⟩

/-- C3, amended: a failing row embeds no image, is never skipped or
reordered, and never halts the run; its `thumbnail_dataurl` cell is
left unchanged whenever the fetch returns empty or raises, while an
exception raised by the thumbnail encoding (after a successful fetch)
leaves the freshly written data URL in the cell; all other cells of the
row are never touched. -/
theorem C3_row_failure_effects :
    (∀ (net : Network) (pil : Pil) (t d : Nat) (cells : List PyVal),
      ((processRow net pil t d cells).2.1 ≠ "ok" →
        (processRow net pil t d cells).1.embedded = false) ∧
      ((rowUrl t cells = "" ∨ (fetch_image net (.str (rowUrl t cells))).1 = .ok [] ∨
        ∃ k, (fetch_image net (.str (rowUrl t cells))).1 = .error k) →
        (processRow net pil t d cells).1.cells = cells) ∧
      (∀ bs, (fetch_image net (.str (rowUrl t cells))).1 = .ok bs → bs ≠ [] →
        rowUrl t cells ≠ "" →
        (processRow net pil t d cells).1.cells =
          cells.set d (.str (to_data_url pil bs))) ∧
      (∀ j, j ≠ d → (processRow net pil t d cells).1.cells[j]? = cells[j]?)) ∧
    (∀ (net : Network) (pil : Pil) (df : Table) (cap : Nat), "thumbnail" ∈ df.cols →
      ∃ out, build_excel_with_images net pil df cap = .ok out ∧
        out.rows.length = (if 0 < cap then min cap df.rows.length else df.rows.length) ∧
        ∀ j : Nat, out.rows[j]? = ((insertedRows df cap)[j]?).map
          (fun cells => (processRow net pil (tIdxOf df) (dIdxOf df) cells).1)) := by
  constructor
  · intro net pil t d cells
    rcases processRow_shape net pil t d cells with
        ⟨hp, hu⟩ | ⟨hu, ⟨k, hf, hp⟩ | ⟨hf, hp⟩ | ⟨bs, hf, hbs, ⟨k, ht, hp⟩ | ⟨tb, ht, hp⟩⟩⟩
    · refine ⟨fun _ => by rw [hp], fun _ => by rw [hp], ?_, fun j hj => by rw [hp]⟩
      intro bs hf hbs hurl
      exact absurd hu hurl
    · refine ⟨fun _ => by rw [hp], fun _ => by rw [hp], ?_, fun j hj => by rw [hp]⟩
      intro bs hf2 hbs hurl
      rw [hf] at hf2
      exact absurd hf2 (by simp)
    · refine ⟨fun _ => by rw [hp], fun _ => by rw [hp], ?_, fun j hj => by rw [hp]⟩
      intro bs hf2 hbs hurl
      rw [hf] at hf2
      simp at hf2
      exact absurd hf2 hbs
    · refine ⟨fun _ => by rw [hp], ?_, ?_, ?_⟩
      · intro hdisj
        rcases hdisj with h1 | h1 | ⟨k2, h1⟩
        · exact absurd h1 hu
        · rw [hf] at h1; simp at h1; exact absurd h1 hbs
        · rw [hf] at h1; exact Except.noConfusion h1
      · intro bs2 hf2 hbs2 hurl
        rw [hf] at hf2
        simp at hf2
        subst hf2
        rw [hp]
      · intro j hj
        rw [hp]
        show (cells.set d (PyVal.str (to_data_url pil bs)))[j]? = cells[j]?
        exact List.getElem?_set_ne (by omega)
    · refine ⟨fun hok => absurd (by rw [hp]) hok, ?_, ?_, ?_⟩
      · intro hdisj
        rcases hdisj with h1 | h1 | ⟨k2, h1⟩
        · exact absurd h1 hu
        · rw [hf] at h1; simp at h1; exact absurd h1 hbs
        · rw [hf] at h1; exact Except.noConfusion h1
      · intro bs2 hf2 hbs2 hurl
        rw [hf] at hf2
        simp at hf2
        subst hf2
        rw [hp]
      · intro j hj
        rw [hp]
        show (cells.set d (PyVal.str (to_data_url pil bs)))[j]? = cells[j]?
        exact List.getElem?_set_ne (by omega)
  · intro net pil df cap h
    refine ⟨_, build_ok net pil df cap h, ?_, ?_⟩
    · show (buildRows net pil (tIdxOf df) (dIdxOf df) (insertedRows df cap) 0).1.length = _
      rw [buildRows_rows_length, insertedRows_length]
    · intro j
      show (buildRows net pil (tIdxOf df) (dIdxOf df) (insertedRows df cap) 0).1[j]? = _
      rw [buildRows_rows_getElem?]

/-- C3, witness: the amended row behaviour at a concrete failing row
(404: fetch raises, cell untouched, nothing embedded). -/
theorem C3_witness :
    (processRow net404 pil0 0 1 [.str "http://x"]).1.embedded = false ∧
    (processRow net404 pil0 0 1 [.str "http://x"]).1.cells = [.str "http://x"] := by
  have h := (C3_row_failure_effects.1 net404 pil0 0 1 [.str "http://x"])
  exact ⟨h.1 (by decide), h.2.1 (Or.inr (Or.inr ⟨"HTTPError", rfl⟩))⟩

end ImageExtractor
